import Mathlib

/-!
Shallow embedding of the Stremio "Cataloog BP" addon core
(`lib/tmdb.js` TMDB client and the `index.js` catalog handler).

JS values are modelled as follows: a possibly-missing string field is
`Option String` (JS `undefined`/`null` become `none`); JS numbers that hold
integers are `Nat`/`Int`; the fractional TMDB vote average is `ℚ`; a JS
`Map` or a plain object used as a dictionary is an association list with
`Map.set` semantics (update first binding in place, else append).
Asynchrony is erased: an `await`ed upstream response is passed in as an
explicit argument, and the two in-memory caches are threaded as explicit
state.
-/

/-- Association-list lookup, mirroring `Map.get` / `URLSearchParams.get`
(`mapGet c k = some v` corresponds to `Map.has` returning true). -/
def mapGet {κ : Type} [BEq κ] {β : Type} : List (κ × β) → κ → Option β
  | [], _ => none
  | p :: rest, k => if p.1 == k then some p.2 else mapGet rest k

/-- Association-list update, mirroring `Map.set` / `URLSearchParams.set`:
replace the first binding of the key in place, else append a new binding. -/
def mapSet {κ : Type} [BEq κ] {β : Type} : List (κ × β) → κ → β → List (κ × β)
  | [], k, v => [(k, v)]
  | p :: rest, k, v => if p.1 == k then (k, v) :: rest else p :: mapSet rest k v

theorem mapGet_mapSet {κ : Type} [BEq κ] [LawfulBEq κ] [DecidableEq κ] {β : Type}
    (c : List (κ × β)) (k k' : κ) (v : β) :
    mapGet (mapSet c k v) k' = if k' = k then some v else mapGet c k' := by
  induction c with
  | nil =>
    by_cases h : k' = k
    · subst h; simp [mapGet, mapSet]
    · simp [mapGet, mapSet, h, Ne.symm h]
  | cons p rest ih =>
    by_cases hp : p.1 = k
    · by_cases h : k' = k
      · subst h; simp [mapGet, mapSet, hp]
      · have h2 : ¬k = k' := fun hh => h hh.symm
        simp [mapGet, mapSet, hp, h, h2]
    · by_cases hq : p.1 = k'
      · have h : ¬k' = k := fun hh => hp (hq.trans hh)
        simp [mapGet, mapSet, hp, hq, h]
      · simp [mapGet, mapSet, hp, hq, ih]

theorem mapGet_mem {κ : Type} [BEq κ] [LawfulBEq κ] {β : Type}
    (c : List (κ × β)) (k : κ) (v : β) (h : mapGet c k = some v) : (k, v) ∈ c := by
  induction c with
  | nil => simp [mapGet] at h
  | cons p rest ih =>
    rcases p with ⟨a, b⟩
    by_cases hp : a = k
    · simp only [mapGet, hp, beq_self_eq_true, if_pos, Option.some.injEq] at h
      subst hp; subst h
      exact List.mem_cons_self _ _
    · simp only [mapGet, beq_iff_eq, hp, if_false] at h
      exact List.mem_cons_of_mem _ (ih h)

/-- JS `x || null` for a string-or-missing value: the empty string is falsy,
so it collapses to `null` (`none`). Used for `data.imdb_id || null`. -/
def jsOrNull (o : Option String) : Option String :=
  match o with
  | some s => if s = "" then none else some s
  | none => none

/-- JS `a || b` for two string-or-missing values, used for
`movie.title || movie.original_title` and `series.name || series.original_name`. -/
def jsOrOpt (a b : Option String) : Option String :=
  match a with
  | some s => if s = "" then b else some s
  | none => b

/-- JS `parseInt(x) || 0`: `none` models a `NaN` parse result (absent or
non-numeric input) and falls back to `0`; `some 0` is falsy and also yields
`0`, which coincides with `Option.getD`. -/
def jsOrZeroInt (o : Option Int) : Int := o.getD 0

/-- JS `.filter(Boolean)` over a list of string-or-undefined values:
keeps exactly the present, non-empty strings. -/
def jsFilterBoolean (l : List (Option String)) : List String :=
  l.filterMap (fun o =>
    match o with
    | some s => if s = "" then none else some s
    | none => none)

/-- Model of JS `Number.prototype.toFixed(1)` at rational precision
(round half away from zero to one decimal place and render). The source only
applies it to non-negative TMDB vote averages. -/
def jsToFixed1 (q : ℚ) : String :=
  let n : Int := ⌊q * 10 + 1 / 2⌋
  toString (n / 10) ++ "." ++ toString (n % 10).natAbs

/-- Core of JS `String.prototype.replace(pat, '')` with a string pattern:
remove the first occurrence of `pat`, leaving the string unchanged when the
pattern does not occur. -/
def removeFirstOcc (pat : List Char) : List Char → List Char
  | [] => []
  | c :: rest =>
    if pat.isPrefixOf (c :: rest) then (c :: rest).drop pat.length
    else c :: removeFirstOcc pat rest

/-- JS `s.replace(pat, '')` for a plain-string pattern. -/
def jsReplaceFirst (s pat : String) : String :=
  String.mk (removeFirstOcc pat.data s.data)

/-! Constants of `lib/tmdb.js`. -/

def TMDB_BASE_URL : String := "https://api.themoviedb.org/3"

def METAHUB_URL : String := "https://images.metahub.space"

/-- The static TMDB genre-id → display-name table (`GENRE_MAP`), in source
order: the movie genre vocabulary followed by the TV genre vocabulary. -/
def GENRE_MAP : List (Nat × String) :=
  [(28, "Action"), (12, "Adventure"), (16, "Animation"), (35, "Comedy"),
   (80, "Crime"), (99, "Documentary"), (18, "Drama"), (10751, "Family"),
   (14, "Fantasy"), (36, "History"), (27, "Horror"), (10402, "Music"),
   (9648, "Mystery"), (10749, "Romance"), (878, "Sci-Fi"), (10770, "TV Movie"),
   (53, "Thriller"), (10752, "War"), (37, "Western"),
   (10759, "Action & Adventure"), (10762, "Kids"), (10763, "News"),
   (10764, "Reality"), (10765, "Sci-Fi & Fantasy"), (10766, "Soap"),
   (10767, "Talk"), (10768, "War & Politics")]

/-- JS `GENRE_MAP[id]`: `none` models `undefined` for an unmapped id. -/
def genreLookup (id : Nat) : Option String := mapGet GENRE_MAP id

/-- The genre-shaping pipeline of `_formatMovie` / `_formatSeries`:
`(movie.genre_ids || []).map(id => GENRE_MAP[id]).filter(Boolean)`. -/
def genreNamesOf (ids : Option (List Nat)) : List String :=
  jsFilterBoolean ((ids.getD []).map genreLookup)

/-- Raw TMDB movie record (the fields `_formatMovie` reads). -/
structure RawMovie where
  id : Option Nat := none
  title : Option String := none
  original_title : Option String := none
  overview : Option String := none
  release_date : Option String := none
  vote_average : Option ℚ := none
  genre_ids : Option (List Nat) := none
deriving DecidableEq

/-- Raw TMDB series record (the fields `_formatSeries` reads). -/
structure RawSeries where
  id : Option Nat := none
  name : Option String := none
  original_name : Option String := none
  overview : Option String := none
  first_air_date : Option String := none
  vote_average : Option ℚ := none
  genre_ids : Option (List Nat) := none
deriving DecidableEq

/-- The Stremio meta object built by `_formatMovie` / `_formatSeries`. -/
structure Meta where
  id : String
  imdb_id : String
  type : String
  name : Option String
  poster : String
  background : String
  logo : String
  description : Option String
  releaseInfo : Option String
  imdbRating : Option String
  year : Option String
  genres : List String
deriving DecidableEq

/-- `_formatMovie(movie)`: the identifier resolver is abstracted as the
oracle `resolve` (the settled value of `await this._getMovieImdbId(movie.id)`).
Returns `none` for a null record, a falsy `movie.id` (missing or `0`), or a
falsy resolved id (`null` or the empty string). -/
def formatMovie (resolve : Nat → Option String) (movie : Option RawMovie) : Option Meta :=
  match movie with
  | none => none
  | some m =>
    match m.id with
    | none => none
    | some tmdbId =>
      if tmdbId = 0 then none
      else
        match resolve tmdbId with
        | none => none
        | some imdbId =>
          if imdbId = "" then none
          else some {
            id := imdbId
            imdb_id := imdbId
            type := "movie"
            name := jsOrOpt m.title m.original_title
            poster := METAHUB_URL ++ "/poster/medium/" ++ imdbId ++ "/img"
            background := METAHUB_URL ++ "/background/medium/" ++ imdbId ++ "/img"
            logo := METAHUB_URL ++ "/logo/medium/" ++ imdbId ++ "/img"
            description := m.overview
            releaseInfo := m.release_date.map (fun d => d.take 4)
            imdbRating := m.vote_average.map jsToFixed1
            year := m.release_date.map (fun d => d.take 4)
            genres := genreNamesOf m.genre_ids }

/-- `_formatSeries(series)`, analogous to `formatMovie`. -/
def formatSeries (resolve : Nat → Option String) (series : Option RawSeries) : Option Meta :=
  match series with
  | none => none
  | some s =>
    match s.id with
    | none => none
    | some tmdbId =>
      if tmdbId = 0 then none
      else
        match resolve tmdbId with
        | none => none
        | some imdbId =>
          if imdbId = "" then none
          else some {
            id := imdbId
            imdb_id := imdbId
            type := "series"
            name := jsOrOpt s.name s.original_name
            poster := METAHUB_URL ++ "/poster/medium/" ++ imdbId ++ "/img"
            background := METAHUB_URL ++ "/background/medium/" ++ imdbId ++ "/img"
            logo := METAHUB_URL ++ "/logo/medium/" ++ imdbId ++ "/img"
            description := s.overview
            releaseInfo := s.first_air_date.map (fun d => d.take 4)
            imdbRating := s.vote_average.map jsToFixed1
            year := s.first_air_date.map (fun d => d.take 4)
            genres := genreNamesOf s.genre_ids }

/-- The per-page shaping of every movie catalogue operation:
`await Promise.all(data.results.map(m => this._formatMovie(m)))` followed by
`.filter(Boolean)`. -/
def formatMovieList (resolve : Nat → Option String) (results : List (Option RawMovie)) :
    List Meta :=
  (results.map (formatMovie resolve)).filterMap id

/-- The per-page shaping of every series catalogue operation. -/
def formatSeriesList (resolve : Nat → Option String) (results : List (Option RawSeries)) :
    List Meta :=
  (results.map (formatSeries resolve)).filterMap id


/-! The response cache of `lib/tmdb.js` (`cached(key, fn)` over the
module-level `cache` map with a 30-minute TTL). -/

def CACHE_TTL : Nat := 30 * 60 * 1000

/-- One entry of the response cache: `{ data, timestamp }`. -/
structure CacheEntry (α : Type) where
  data : α
  timestamp : Nat
deriving DecidableEq

/-- `cached(key, fn)` as a state transformer: `now` is `Date.now()`,
`fnResult` the value `fn` would produce on this call, and the returned `Bool`
records whether `fn` was invoked (a cache miss or a stale entry). -/
def cached {α : Type} (key : String) (now : Nat) (fnResult : α)
    (cache : List (String × CacheEntry α)) :
    α × List (String × CacheEntry α) × Bool :=
  match mapGet cache key with
  | some entry =>
    if now - entry.timestamp < CACHE_TTL then (entry.data, cache, false)
    else (fnResult, mapSet cache key ⟨fnResult, now⟩, true)
  | none => (fnResult, mapSet cache key ⟨fnResult, now⟩, true)

/-- The named catalogue fetch operations of `TMDBClient` (every cached,
list-returning query method), with the parameters that enter their cache keys. -/
inductive NamedOp where
  | trendingMoviesDay
  | trendingMoviesWeek
  | trendingSeriesDay
  | trendingSeriesWeek
  | topRatedMovies
  | topRatedSeries
  | popularMovies
  | hiddenGems
  | nowPlayingMovies
  | upcomingMovies
  | moviesByGenre (genreId : Nat)
  | seriesByGenre (genreId : Nat)
  | miniSeries
  | kDramas
  | anime
  | docuSeries
  | moviesByProvider (providerId : Nat) (region : String)
  | seriesByProvider (providerId : Nat) (region : String)
  | moviesByCountry (countryCode : String)
  | jDrama
  | asianDrama
  | chineseMovies
  | koreanRomance
  | crimeMovies
  | crimeSeries
  | classicSeries
  | classicMovies
  | moviesByKeyword (keywordId : Nat)
  | christmasMovies
  | halloweenMovies
  | feelGoodMovies
  | mindBendingMovies
  | cultMovies
  | familyMovies
  | oscarWinners
deriving DecidableEq

/-- The response-cache key template of each named operation, exactly as in
the source (for example `movies_genre_${genreId}_${page}`). -/
def NamedOp.cacheKey : NamedOp → Int → String
  | .trendingMoviesDay, page => "trending_movies_day_" ++ toString page
  | .trendingMoviesWeek, page => "trending_movies_week_" ++ toString page
  | .trendingSeriesDay, page => "trending_series_day_" ++ toString page
  | .trendingSeriesWeek, page => "trending_series_week_" ++ toString page
  | .topRatedMovies, page => "top_rated_movies_" ++ toString page
  | .topRatedSeries, page => "top_rated_series_" ++ toString page
  | .popularMovies, page => "popular_movies_" ++ toString page
  | .hiddenGems, page => "hidden_gems_" ++ toString page
  | .nowPlayingMovies, page => "now_playing_" ++ toString page
  | .upcomingMovies, page => "upcoming_" ++ toString page
  | .moviesByGenre genreId, page => "movies_genre_" ++ toString genreId ++ "_" ++ toString page
  | .seriesByGenre genreId, page => "series_genre_" ++ toString genreId ++ "_" ++ toString page
  | .miniSeries, page => "miniseries_" ++ toString page
  | .kDramas, page => "kdramas_" ++ toString page
  | .anime, page => "anime_" ++ toString page
  | .docuSeries, page => "docuseries_" ++ toString page
  | .moviesByProvider providerId region, page =>
      "movies_provider_" ++ toString providerId ++ "_" ++ region ++ "_" ++ toString page
  | .seriesByProvider providerId region, page =>
      "series_provider_" ++ toString providerId ++ "_" ++ region ++ "_" ++ toString page
  | .moviesByCountry countryCode, page =>
      "movies_country_" ++ countryCode ++ "_" ++ toString page
  | .jDrama, page => "jdrama_" ++ toString page
  | .asianDrama, page => "asian_drama_" ++ toString page
  | .chineseMovies, page => "chinese_movies_" ++ toString page
  | .koreanRomance, page => "korean_romance_" ++ toString page
  | .crimeMovies, page => "crime_movies_" ++ toString page
  | .crimeSeries, page => "crime_series_" ++ toString page
  | .classicSeries, page => "classic_series_" ++ toString page
  | .classicMovies, page => "classic_movies_" ++ toString page
  | .moviesByKeyword keywordId, page =>
      "movies_keyword_" ++ toString keywordId ++ "_" ++ toString page
  | .christmasMovies, page => "christmas_" ++ toString page
  | .halloweenMovies, page => "halloween_" ++ toString page
  | .feelGoodMovies, page => "feelgood_" ++ toString page
  | .mindBendingMovies, page => "mindbending_" ++ toString page
  | .cultMovies, page => "cult_" ++ toString page
  | .familyMovies, page => "family_" ++ toString page
  | .oscarWinners, page => "oscars_" ++ toString page

/-- Every named catalogue fetch operation is `cached(key, fn)` around its
upstream fetch + formatting body; `fnResult` stands for that body's value. -/
def runNamedOp {α : Type} (op : NamedOp) (page : Int) (now : Nat) (fnResult : α)
    (cache : List (String × CacheEntry α)) :
    α × List (String × CacheEntry α) × Bool :=
  cached (op.cacheKey page) now fnResult cache

/-- `getMoviesByGenre(genreId, page)`: the upstream page `data.results` is
given as `upstream`, the resolver as `resolve`, and the response cache is
threaded explicitly. -/
def getMoviesByGenre (genreId : Nat) (page : Int) (now : Nat)
    (resolve : Nat → Option String) (upstream : List (Option RawMovie))
    (cache : List (String × CacheEntry (List Meta))) :
    List Meta × List (String × CacheEntry (List Meta)) × Bool :=
  runNamedOp (NamedOp.moviesByGenre genreId) page now (formatMovieList resolve upstream) cache

/-- `searchMovies(query, page)`: fetches `/search/movie` and formats, with no
`cached(...)` wrapper — the body never touches the response cache, which is
threaded through unchanged. -/
def searchMovies (resolve : Nat → Option String) (upstream : List (Option RawMovie))
    (cache : List (String × CacheEntry (List Meta))) :
    List Meta × List (String × CacheEntry (List Meta)) :=
  (formatMovieList resolve upstream, cache)

/-- `searchSeries(query, page)`, analogous to `searchMovies`. -/
def searchSeries (resolve : Nat → Option String) (upstream : List (Option RawSeries))
    (cache : List (String × CacheEntry (List Meta))) :
    List Meta × List (String × CacheEntry (List Meta)) :=
  (formatSeriesList resolve upstream, cache)

/-! The identifier resolver (`_getMovieImdbId` / `_getSeriesImdbId`) with its
process-lifetime `imdbCache`. -/

/-- The two identifier namespaces of the resolver. -/
inductive Kind where
  | movie
  | series
deriving DecidableEq

/-- Outcome of the `/movie/{id}/external_ids` (or `/tv/{id}/external_ids`)
request: `ok field` is a successful response whose parsed `imdb_id` field is
`field` (`none` for missing or JSON null), `err` a thrown transport or
upstream error. -/
inductive FetchOutcome where
  | ok (imdb_id : Option String)
  | err
deriving DecidableEq

/-- The `imdbCache` key: `movie_${tmdbId}` or `series_${tmdbId}`. -/
def imdbKey : Kind → Nat → String
  | .movie, tmdbId => "movie_" ++ toString tmdbId
  | .series, tmdbId => "series_" ++ toString tmdbId

/-- Result of one resolver call: the returned IMDb id (or null), the
`imdbCache` afterwards, and whether an upstream request was issued. -/
structure ResolveOut where
  result : Option String
  cache : List (String × Option String)
  requested : Bool
deriving DecidableEq

/-- One call of `_getMovieImdbId` / `_getSeriesImdbId` (selected by `kind`):
a cached key returns the stored value (possibly null) without a request; on a
miss, a successful fetch stores and returns `data.imdb_id || null`, while a
thrown fetch is caught, returns null, and stores nothing. -/
def resolveStep (kind : Kind) (outcome : FetchOutcome)
    (imdbCache : List (String × Option String)) (tmdbId : Nat) : ResolveOut :=
  match mapGet imdbCache (imdbKey kind tmdbId) with
  | some v => ⟨v, imdbCache, false⟩
  | none =>
    match outcome with
    | .ok field => ⟨jsOrNull field, mapSet imdbCache (imdbKey kind tmdbId) (jsOrNull field), true⟩
    | .err => ⟨none, imdbCache, true⟩

/-- `_getMovieImdbId(tmdbId)`. -/
def getMovieImdbId (outcome : FetchOutcome) (imdbCache : List (String × Option String))
    (tmdbId : Nat) : ResolveOut :=
  resolveStep Kind.movie outcome imdbCache tmdbId

/-- `_getSeriesImdbId(tmdbId)`. -/
def getSeriesImdbId (outcome : FetchOutcome) (imdbCache : List (String × Option String))
    (tmdbId : Nat) : ResolveOut :=
  resolveStep Kind.series outcome imdbCache tmdbId

/-! The query-parameter construction of `TMDBClient._fetch`. -/

/-- The `for (const [key, value] of Object.entries(params))` loop of `_fetch`:
apply each caller parameter with `url.searchParams.set(key, value)`, skipping
`undefined`/`null` values (`none`). -/
def applyParams (base : List (String × String)) :
    List (String × Option String) → List (String × String)
  | [] => base
  | p :: rest =>
    applyParams (match p.2 with
      | some s => mapSet base p.1 s
      | none => base) rest

/-- The full query-string mapping built by `_fetch`: `api_key` and `language`
are set first, then the caller parameters are applied on top. -/
def fetchParams (apiKey language : String) (params : List (String × Option String)) :
    List (String × String) :=
  applyParams (mapSet (mapSet [] "api_key" apiKey) "language" language) params

/-- The request URL of `_fetch(endpoint, params)`: base-plus-endpoint path and
the query-parameter mapping. -/
def fetchUrl (endpoint apiKey language : String) (params : List (String × Option String)) :
    String × List (String × String) :=
  (TMDB_BASE_URL ++ endpoint, fetchParams apiKey language params)

theorem applyParams_lookup_of_not_mem (base : List (String × String))
    (ps : List (String × Option String)) (k : String)
    (h : ∀ p ∈ ps, p.1 ≠ k) :
    mapGet (applyParams base ps) k = mapGet base k := by
  induction ps generalizing base with
  | nil => rfl
  | cons p rest ih =>
    have hk : p.1 ≠ k := h p (List.mem_cons_self _ _)
    have hr : ∀ q ∈ rest, q.1 ≠ k := fun q hq => h q (List.mem_cons_of_mem _ hq)
    cases hv : p.2 with
    | none => simpa [applyParams, hv] using ih _ hr
    | some s =>
      rw [applyParams, hv, ih _ hr, mapGet_mapSet, if_neg (Ne.symm hk)]

theorem applyParams_lookup_some (base : List (String × String))
    (ps : List (String × Option String)) (k v : String)
    (hnd : (ps.map Prod.fst).Nodup) (hm : (k, some v) ∈ ps) :
    mapGet (applyParams base ps) k = some v := by
  induction ps generalizing base with
  | nil => simp at hm
  | cons p rest ih =>
    rw [List.map_cons, List.nodup_cons] at hnd
    rcases List.mem_cons.mp hm with hh | hh
    · subst hh
      have hrest : ∀ q ∈ rest, q.1 ≠ k := by
        intro q hq he
        have hq1 : q.1 ∈ rest.map Prod.fst := List.mem_map_of_mem Prod.fst hq
        rw [he] at hq1
        exact hnd.1 hq1
      rw [applyParams]
      rw [applyParams_lookup_of_not_mem _ _ _ hrest, mapGet_mapSet, if_pos rfl]
    · cases hv : p.2 with
      | none =>
        rw [applyParams, hv]
        exact ih _ hnd.2 hh
      | some s =>
        rw [applyParams, hv]
        exact ih _ hnd.2 hh

theorem applyParams_lookup_none (base : List (String × String))
    (ps : List (String × Option String)) (k : String)
    (hnd : (ps.map Prod.fst).Nodup) (hm : (k, none) ∈ ps) :
    mapGet (applyParams base ps) k = mapGet base k := by
  induction ps generalizing base with
  | nil => simp at hm
  | cons p rest ih =>
    rw [List.map_cons, List.nodup_cons] at hnd
    rcases List.mem_cons.mp hm with hh | hh
    · subst hh
      have hrest : ∀ q ∈ rest, q.1 ≠ k := by
        intro q hq he
        have hq1 : q.1 ∈ rest.map Prod.fst := List.mem_map_of_mem Prod.fst hq
        rw [he] at hq1
        exact hnd.1 hq1
      rw [applyParams]
      exact applyParams_lookup_of_not_mem _ _ _ hrest
    · have hk : p.1 ≠ k := by
        intro he
        have hq1 : k ∈ rest.map Prod.fst := by
          simpa using List.mem_map_of_mem Prod.fst hh
        rw [← he] at hq1
        exact hnd.1 hq1
      cases hv : p.2 with
      | none =>
        rw [applyParams, hv]
        exact ih _ hnd.2 hh
      | some s =>
        rw [applyParams, hv, ih _ hnd.2 hh, mapGet_mapSet, if_neg (Ne.symm hk)]

/-! The catalog dispatch handler of `index.js` (`builder.defineCatalogHandler`). -/

/-- Outcome of awaiting a registry entry's `catalog.fetch(page)`:
`ok results` is a resolved list of metas, `err` a rejected promise
(the upstream listing fetch propagated a transport error). -/
inductive FetchResult (α : Type) where
  | ok (results : List α)
  | err
deriving DecidableEq

/-- The meta list the handler hands to the client for a given fetch outcome
(the `try { ... } catch { return { metas: [] } }` around `catalog.fetch`). -/
def metasOf {α : Type} : FetchResult α → List α
  | .ok results => results
  | .err => []

/-- The catalog handler: strip the `cataloog-bp-` prefix from the requested
id, look the catalogue up in `CATALOGS`, default a missing/non-numeric `skip`
to 0, convert it to a 1-based page via `Math.floor(skip / 20) + 1`, invoke
the entry's fetch, and always answer a `{ metas: ... }` object (empty on an
unknown id or a fetch failure). The response object is modelled as a
field-name/value association list. -/
def catalogHandler {α : Type} (catalogs : List (String × (Int → FetchResult α)))
    (idArg : String) (skipRaw : Option Int) : List (String × List α) :=
  let catalogId := jsReplaceFirst idArg "cataloog-bp-"
  match mapGet catalogs catalogId with
  | none => [("metas", [])]
  | some fetch =>
    let skip := jsOrZeroInt skipRaw
    let page := Int.fdiv skip 20 + 1
    match fetch page with
    | .ok results => [("metas", results)]
    | .err => [("metas", [])]

theorem removeFirstOcc_append (pat rest : List Char) :
    removeFirstOcc pat (pat ++ rest) = rest := by
  cases pat with
  | nil =>
    cases rest with
    | nil => rfl
    | cons c t => simp [removeFirstOcc, List.isPrefixOf]
  | cons c cs =>
    have hpre : (c :: cs).isPrefixOf (c :: (cs ++ rest)) = true := by
      simp
    simp only [List.cons_append, removeFirstOcc, hpre, if_true]
    simp

theorem jsReplaceFirst_strip (cid : String) :
    jsReplaceFirst ("cataloog-bp-" ++ cid) "cataloog-bp-" = cid := by
  unfold jsReplaceFirst
  rw [String.data_append, removeFirstOcc_append]

theorem fdiv_ofNat_twenty (n : Nat) :
    Int.fdiv (n : Int) 20 = ((n / 20 : Nat) : Int) := by
  cases n with
  | zero => rfl
  | succ m => rfl

theorem fdiv_twenty_neg {s : Int} (h : s < 0) : Int.fdiv s 20 + 1 ≤ 0 := by
  cases s with
  | ofNat n =>
    exact absurd h (Int.not_lt.mpr (Int.ofNat_nonneg n))
  | negSucc m =>
    have : Int.fdiv (Int.negSucc m) 20 = Int.negSucc (m / 20) := rfl
    rw [this, Int.negSucc_eq]
    omega

/-! Supporting lemmas for the claim theorems. -/

theorem formatMovie_id_spec (resolve : Nat → Option String) (r : Option RawMovie) (meta : Meta)
    (hm : formatMovie resolve r = some meta) :
    ∃ i s, resolve i = some s ∧ s ≠ "" ∧ meta.id = s := by
  cases r with
  | none => simp [formatMovie] at hm
  | some m =>
    cases hid : m.id with
    | none => simp [formatMovie, hid] at hm
    | some i =>
      by_cases hi : i = 0
      · simp [formatMovie, hid, hi] at hm
      · cases hres : resolve i with
        | none => simp [formatMovie, hid, hi, hres] at hm
        | some s =>
          by_cases hs : s = ""
          · simp [formatMovie, hid, hi, hres, hs] at hm
          · refine ⟨i, s, hres, hs, ?_⟩
            simp only [formatMovie, hid, hi, if_false, hres, hs, ite_false,
              Option.some.injEq] at hm
            rw [← hm]

theorem genreLookup_ne_empty (id : Nat) (s : String) (h : genreLookup id = some s) :
    s ≠ "" := by
  have hm := mapGet_mem GENRE_MAP id s h
  have hall : ∀ p ∈ GENRE_MAP, p.2 ≠ "" := by decide
  exact hall (id, s) hm

/-- C1: in the formatted output of a catalogue page, every record whose
upstream id is missing or whose identifier resolution comes back absent is
dropped, every surviving meta carries the non-empty IMDb id the resolver
returned, and the output is never longer than the upstream page. -/
theorem c1_formatted_list_drops_unresolved (resolve : Nat → Option String)
    (results : List (Option RawMovie)) (genreId : Nat) (page : Int) (now : Nat)
    (cache : List (String × CacheEntry (List Meta))) :
    (formatMovieList resolve results).length ≤ results.length ∧
    formatMovie resolve none = none ∧
    (∀ m : RawMovie, m.id = none → formatMovie resolve (some m) = none) ∧
    (∀ (m : RawMovie) (i : Nat), m.id = some i → resolve i = none →
      formatMovie resolve (some m) = none) ∧
    (∀ meta ∈ formatMovieList resolve results,
      meta.id ≠ "" ∧ ∃ i, resolve i = some meta.id) ∧
    (mapGet cache ((NamedOp.moviesByGenre genreId).cacheKey page) = none →
      (getMoviesByGenre genreId page now resolve results cache).1 =
        formatMovieList resolve results) := by
  refine ⟨?_, rfl, ?_, ?_, ?_, ?_⟩
  · calc (formatMovieList resolve results).length
        ≤ (results.map (formatMovie resolve)).length := List.length_filterMap_le _ _
      _ = results.length := List.length_map _ _
  · intro m hm
    simp [formatMovie, hm]
  · intro m i hm hi
    by_cases h0 : i = 0 <;> simp [formatMovie, hm, h0, hi]
  · intro meta hmem
    unfold formatMovieList at hmem
    rw [List.mem_filterMap] at hmem
    obtain ⟨o, ho, ho2⟩ := hmem
    rw [List.mem_map] at ho
    obtain ⟨r, hr, hro⟩ := ho
    have hfm : formatMovie resolve r = some meta := by
      rw [hro]; exact ho2
    obtain ⟨i, s, hres, hs, hid⟩ := formatMovie_id_spec resolve r meta hfm
    constructor
    · rw [hid]; exact hs
    · exact ⟨i, by rw [hid]; exact hres⟩
  · intro hmiss
    simp [getMoviesByGenre, runNamedOp, cached, hmiss]

theorem c1_witness :
    (formatMovieList (fun i => if i = 1 then some "tt0000001" else none)
        [some { id := some 1 }, some { id := some 2 }, none]).length ≤ 3 ∧
    formatMovie (fun i => if i = 1 then some "tt0000001" else none)
        (some { id := some 2 }) = none := by
  have h := c1_formatted_list_drops_unresolved
    (fun i => if i = 1 then some "tt0000001" else none)
    [some { id := some 1 }, some { id := some 2 }, none] 53 1 0 []
  exact ⟨by simpa using h.1, h.2.2.2.1 { id := some 2 } 2 rfl (by decide)⟩

/-- C2: on a cache miss, a thrown identifier-resolution request makes the
resolver return null without writing to `imdbCache` (so the next call for the
same key issues a fresh request), while a successful resolution writes its
outcome — present or null — and every later call for that key is answered
from the cache; no resolver step ever removes an existing cache entry. -/
theorem c2_resolver_error_uncached (kind : Kind) (tmdbId : Nat)
    (imdbCache : List (String × Option String))
    (hmiss : mapGet imdbCache (imdbKey kind tmdbId) = none) :
    resolveStep kind FetchOutcome.err imdbCache tmdbId = ⟨none, imdbCache, true⟩ ∧
    (∀ outcome₂ : FetchOutcome,
      (resolveStep kind outcome₂
        (resolveStep kind FetchOutcome.err imdbCache tmdbId).cache tmdbId).requested = true) ∧
    (∀ field : Option String,
      resolveStep kind (FetchOutcome.ok field) imdbCache tmdbId =
        ⟨jsOrNull field, mapSet imdbCache (imdbKey kind tmdbId) (jsOrNull field), true⟩) ∧
    (∀ (field : Option String) (outcome₂ : FetchOutcome),
      resolveStep kind outcome₂
          (resolveStep kind (FetchOutcome.ok field) imdbCache tmdbId).cache tmdbId =
        ⟨jsOrNull field, (resolveStep kind (FetchOutcome.ok field) imdbCache tmdbId).cache,
          false⟩) ∧
    (∀ (c : List (String × Option String)) (kind' : Kind) (outcome' : FetchOutcome)
        (id' : Nat) (k : String) (w : Option String),
      mapGet c k = some w → mapGet (resolveStep kind' outcome' c id').cache k = some w) := by
  refine ⟨?_, ?_, ?_, ?_, ?_⟩
  · simp [resolveStep, hmiss]
  · intro outcome₂
    have h1 : (resolveStep kind FetchOutcome.err imdbCache tmdbId).cache = imdbCache := by
      simp [resolveStep, hmiss]
    rw [h1]
    cases outcome₂ <;> simp [resolveStep, hmiss]
  · intro field
    simp [resolveStep, hmiss]
  · intro field outcome₂
    have h1 : (resolveStep kind (FetchOutcome.ok field) imdbCache tmdbId).cache =
        mapSet imdbCache (imdbKey kind tmdbId) (jsOrNull field) := by
      simp [resolveStep, hmiss]
    rw [h1]
    simp [resolveStep, mapGet_mapSet]
  · intro c kind' outcome' id' k w hw
    cases hget : mapGet c (imdbKey kind' id') with
    | some v => simp [resolveStep, hget, hw]
    | none =>
      cases outcome' with
      | err => simp [resolveStep, hget, hw]
      | ok field =>
        simp only [resolveStep, hget]
        rw [mapGet_mapSet]
        by_cases hk : k = imdbKey kind' id'
        · rw [hk] at hw
          rw [hget] at hw
          exact absurd hw (by simp)
        · rw [if_neg hk]
          exact hw

theorem c2_witness :
    resolveStep Kind.movie FetchOutcome.err [] 7 = ⟨none, [], true⟩ ∧
    resolveStep Kind.movie (FetchOutcome.ok (some "tt0000007")) [] 7 =
      ⟨some "tt0000007", [("movie_7", some "tt0000007")], true⟩ ∧
    resolveStep Kind.movie FetchOutcome.err [("movie_7", some "tt0000007")] 7 =
      ⟨some "tt0000007", [("movie_7", some "tt0000007")], false⟩ := by
  have h := c2_resolver_error_uncached Kind.movie 7 [] (by rfl)
  refine ⟨h.1, ?_, ?_⟩
  · have h3 := h.2.2.1 (some "tt0000007")
    rw [h3]
    decide
  · have h4 := h.2.2.2.1 (some "tt0000007") FetchOutcome.err
    have hc : (resolveStep Kind.movie (FetchOutcome.ok (some "tt0000007")) [] 7).cache =
        [("movie_7", some "tt0000007")] := by decide
    rw [hc] at h4
    rw [h4]
    decide

/-- C3: the response cache answers from a stored entry only while the entry
is younger than the 30-minute TTL (measured from the `Date.now()` captured
when `fn` was last invoked for that key); once at least TTL has elapsed — or
when no entry exists — `fn` is invoked again and its value is stored with the
current timestamp. -/
theorem c3_response_cache_ttl {α : Type} (key : String) (now : Nat) (v : α)
    (st : List (String × CacheEntry α)) :
    CACHE_TTL = 30 * 60 * 1000 ∧
    (∀ e, mapGet st key = some e → CACHE_TTL ≤ now - e.timestamp →
      cached key now v st = (v, mapSet st key ⟨v, now⟩, true)) ∧
    (mapGet st key = none → cached key now v st = (v, mapSet st key ⟨v, now⟩, true)) ∧
    (∀ r st', cached key now v st = (r, st', false) →
      ∃ e, mapGet st key = some e ∧ now - e.timestamp < CACHE_TTL ∧
        r = e.data ∧ st' = st) := by
  refine ⟨rfl, ?_, ?_, ?_⟩
  · intro e he hstale
    simp [cached, he, Nat.not_lt.mpr hstale]
  · intro he
    simp [cached, he]
  · intro r st' hc
    cases he : mapGet st key with
    | none =>
      rw [show cached key now v st = (v, mapSet st key ⟨v, now⟩, true) by
        simp [cached, he]] at hc
      simp [Prod.ext_iff] at hc
    | some e =>
      by_cases hfresh : now - e.timestamp < CACHE_TTL
      · rw [show cached key now v st = (e.data, st, false) by
          simp [cached, he, hfresh]] at hc
        simp only [Prod.mk.injEq] at hc
        exact ⟨e, rfl, hfresh, hc.1.symm, hc.2.1.symm⟩
      · rw [show cached key now v st = (v, mapSet st key ⟨v, now⟩, true) by
          simp [cached, he, hfresh]] at hc
        simp [Prod.ext_iff] at hc

theorem c3_witness :
    cached "k" 1800000 (9 : Nat) [("k", ⟨7, 0⟩)] = (9, [("k", ⟨9, 1800000⟩)], true) ∧
    cached "nk" 5 (3 : Nat) [] = (3, [("nk", ⟨3, 5⟩)], true) := by
  constructor
  · have h := (c3_response_cache_ttl "k" 1800000 (9 : Nat) [("k", ⟨7, 0⟩)]).2.1
      ⟨7, 0⟩ (by decide) (by decide)
    rw [h]
    decide
  · have h := (c3_response_cache_ttl "nk" 5 (3 : Nat) []).2.2.1 (by rfl)
    rw [h]
    decide

/-- C4 counterexample: a movie record with the length-3 release-date string
`"198"` formats to a meta whose year is `"198"` — present, not absent — so
"a date string of length 3 yields an absent year" fails on the code
(JS `substring(0, 4)` clamps to the string length instead of failing). -/
theorem c4_counterexample :
    (formatMovie (fun _ => some "tt0000009")
        (some { id := some 9, release_date := some "198" })).map Meta.year =
      some (some "198") ∧
    (some "198" : Option String) ≠ none := by
  constructor
  · rfl
  · decide

/-- C4 amended: the formatter derives year and releaseInfo as the first four
characters of the release/air date string, which is the whole string when the
date is shorter than four characters; the year is absent exactly when the
date string is absent. In particular `"1989-12-31"` yields `"1989"`, while a
length-3 date string yields that same 3-character string (not absent). -/
theorem c4_amended_year_truncation (resolve : Nat → Option String)
    (m : RawMovie) (sv : RawSeries) (i j : Nat) (s t : String)
    (hmi : m.id = some i) (hi : i ≠ 0) (hrs : resolve i = some s) (hs : s ≠ "")
    (hsj : sv.id = some j) (hj : j ≠ 0) (hrt : resolve j = some t) (ht : t ≠ "") :
    (formatMovie resolve (some m)).map Meta.year =
      some (m.release_date.map (fun d => d.take 4)) ∧
    (formatMovie resolve (some m)).map Meta.releaseInfo =
      some (m.release_date.map (fun d => d.take 4)) ∧
    (formatSeries resolve (some sv)).map Meta.year =
      some (sv.first_air_date.map (fun d => d.take 4)) := by
  refine ⟨?_, ?_, ?_⟩ <;>
    simp [formatMovie, formatSeries, hmi, hi, hrs, hs, hsj, hj, hrt, ht]

theorem c4_amended_witness :
    (formatMovie (fun _ => some "tt0097757")
        (some { id := some 5, release_date := some "1989-12-31" })).map Meta.year =
      some (some "1989") ∧
    (formatSeries (fun _ => some "tt0097757")
        (some { id := some 6, first_air_date := some "198" })).map Meta.year =
      some (some "198") := by
  have h := c4_amended_year_truncation (fun _ => some "tt0097757")
    { id := some 5, release_date := some "1989-12-31" }
    { id := some 6, first_air_date := some "198" }
    5 6 "tt0097757" "tt0097757" rfl (by decide) rfl (by decide)
    rfl (by decide) rfl (by decide)
  constructor
  · rw [h.1]
    decide
  · rw [h.2.2]
    decide

/-- C7 counterexample: the static genre table has 27 entries, not the 28 the
claim asserts. -/
theorem c7_counterexample : GENRE_MAP.length = 27 ∧ GENRE_MAP.length ≠ 28 := by
  decide

/-- C7 amended: the formatted genres list maps each upstream genre id through
the static 27-entry genre-name table in upstream order and silently drops
unmapped ids; in particular genre ids `[53, 9999]` yield exactly
`["Thriller"]`, and an absent genre-id list yields `[]`. -/
theorem c7_amended_genre_mapping (ids : List Nat) :
    GENRE_MAP.length = 27 ∧
    genreNamesOf (some ids) = ids.filterMap genreLookup ∧
    genreNamesOf none = [] ∧
    genreNamesOf (some [53, 9999]) = ["Thriller"] := by
  refine ⟨by decide, ?_, rfl, by decide⟩
  induction ids with
  | nil => rfl
  | cons i rest ih =>
    simp only [genreNamesOf, Option.getD_some, List.map_cons, jsFilterBoolean,
      List.filterMap_cons] at ih ⊢
    cases h : genreLookup i with
    | none => simpa [h] using ih
    | some s =>
      have hs : s ≠ "" := genreLookup_ne_empty i s h
      simpa [h, hs] using ih

/-- C5 counterexample: for an unknown catalogue id the handler returns the
object `{ metas: [] }`, not `{ results: [] }` as the claim states. -/
theorem c5_counterexample :
    catalogHandler ([] : List (String × (Int → FetchResult Nat)))
      "cataloog-bp-unknown" none = [("metas", [])] ∧
    catalogHandler ([] : List (String × (Int → FetchResult Nat)))
      "cataloog-bp-unknown" none ≠ [("results", [])] := by
  constructor
  · rfl
  · decide

/-- C5 amended: for an unknown catalogue id the handler returns
`{ metas: [] }` without throwing, and in general the consumer always receives
a well-formed single-field `{ metas: ... }` response — empty when the
underlying fetch operation fails. -/
theorem c5_amended_handler_total {α : Type}
    (catalogs : List (String × (Int → FetchResult α)))
    (idArg : String) (skipRaw : Option Int) :
    (mapGet catalogs (jsReplaceFirst idArg "cataloog-bp-") = none →
      catalogHandler catalogs idArg skipRaw = [("metas", [])]) ∧
    (∀ fetch, mapGet catalogs (jsReplaceFirst idArg "cataloog-bp-") = some fetch →
      catalogHandler catalogs idArg skipRaw =
        [("metas", metasOf (fetch (Int.fdiv (jsOrZeroInt skipRaw) 20 + 1)))]) ∧
    (∃ l, catalogHandler catalogs idArg skipRaw = [("metas", l)]) := by
  refine ⟨?_, ?_, ?_⟩
  · intro h
    simp [catalogHandler, h]
  · intro fetch h
    simp only [catalogHandler, h]
    cases hf : fetch (Int.fdiv (jsOrZeroInt skipRaw) 20 + 1) <;> simp [metasOf, hf]
  · cases h : mapGet catalogs (jsReplaceFirst idArg "cataloog-bp-") with
    | none => exact ⟨[], by simp [catalogHandler, h]⟩
    | some fetch =>
      cases hf : fetch (Int.fdiv (jsOrZeroInt skipRaw) 20 + 1) with
      | ok results => exact ⟨results, by simp [catalogHandler, h, hf]⟩
      | err => exact ⟨[], by simp [catalogHandler, h, hf]⟩

theorem c5_amended_witness :
    catalogHandler ([] : List (String × (Int → FetchResult Nat)))
      "cataloog-bp-nope" none = [("metas", [])] ∧
    catalogHandler [("thriller-movies", fun _ => (FetchResult.err : FetchResult Nat))]
      "cataloog-bp-thriller-movies" (some 0) = [("metas", [])] := by
  constructor
  · exact (c5_amended_handler_total _ _ _).1 rfl
  · have h := (c5_amended_handler_total
      [("thriller-movies", fun _ => (FetchResult.err : FetchResult Nat))]
      "cataloog-bp-thriller-movies" (some 0)).2.1 (fun _ => FetchResult.err) rfl
    rw [h]
    rfl

/-- C6: the handler converts the zero-based skip offset to a one-based
upstream page via `Math.floor(skip / 20) + 1` and invokes the registered
fetch at that page; skip 0, 20 and 45 give pages 1, 2 and 3, and an absent or
non-numeric skip defaults to 0 (page 1). -/
theorem c6_pagination (α : Type) (cid : String) (fetch : Int → FetchResult α) (n : Nat) :
    catalogHandler [(cid, fetch)] ("cataloog-bp-" ++ cid) (some (n : Int)) =
      [("metas", metasOf (fetch (((n / 20 : Nat) : Int) + 1)))] ∧
    catalogHandler [(cid, fetch)] ("cataloog-bp-" ++ cid) none =
      [("metas", metasOf (fetch 1))] ∧
    Int.fdiv 0 20 + 1 = 1 ∧ Int.fdiv 20 20 + 1 = 2 ∧ Int.fdiv 45 20 + 1 = 3 := by
  have hget : mapGet [(cid, fetch)] (jsReplaceFirst ("cataloog-bp-" ++ cid) "cataloog-bp-") =
      some fetch := by
    rw [jsReplaceFirst_strip]
    simp [mapGet]
  refine ⟨?_, ?_, by decide, by decide, by decide⟩
  · simp only [catalogHandler, hget, jsOrZeroInt, Option.getD_some]
    rw [fdiv_ofNat_twenty]
    cases hf : fetch (((n / 20 : Nat) : Int) + 1) <;> simp [metasOf, hf]
  · simp only [catalogHandler, hget, jsOrZeroInt, Option.getD_none]
    rw [show Int.fdiv 0 20 + 1 = 1 by decide]
    cases hf : fetch 1 <;> simp [metasOf, hf]

/-- C10: a negative parsed skip is neither clamped nor validated: the page
`Math.floor(skip / 20) + 1` is zero or negative (skip −20 gives page 0) and
the registered fetch is invoked at exactly that non-positive page. -/
theorem c10_negative_skip_page (α : Type) (cid : String) (fetch : Int → FetchResult α)
    (s : Int) (hneg : s < 0) :
    Int.fdiv s 20 + 1 ≤ 0 ∧
    catalogHandler [(cid, fetch)] ("cataloog-bp-" ++ cid) (some s) =
      [("metas", metasOf (fetch (Int.fdiv s 20 + 1)))] ∧
    Int.fdiv (-20) 20 + 1 = 0 := by
  have hget : mapGet [(cid, fetch)] (jsReplaceFirst ("cataloog-bp-" ++ cid) "cataloog-bp-") =
      some fetch := by
    rw [jsReplaceFirst_strip]
    simp [mapGet]
  refine ⟨fdiv_twenty_neg hneg, ?_, by decide⟩
  simp only [catalogHandler, hget, jsOrZeroInt, Option.getD_some]
  cases hf : fetch (Int.fdiv s 20 + 1) <;> simp [metasOf, hf]

theorem c10_witness :
    Int.fdiv (-20) 20 + 1 ≤ 0 ∧
    catalogHandler [("thriller-movies", fun p => FetchResult.ok [p])]
      ("cataloog-bp-" ++ "thriller-movies") (some (-20)) = [("metas", [(0 : Int)])] := by
  have h := c10_negative_skip_page Int "thriller-movies" (fun p => FetchResult.ok [p])
    (-20) (by decide)
  refine ⟨h.1, ?_⟩
  rw [h.2.1]
  decide

/-- C8 counterexample: `_fetch` sets the defaults first and then applies the
caller parameters with `searchParams.set`, so a caller mapping that binds
`language` overrides the fixed locale — the constructed URL then does not
contain the fixed locale parameter, refuting "always contains ... the fixed
locale parameter" as universally stated. -/
theorem c8_counterexample :
    mapGet (fetchUrl "/discover/movie" "KEY" "fr-FR" [("language", some "en")]).2
      "language" = some "en" ∧
    mapGet (fetchUrl "/discover/movie" "KEY" "fr-FR" [("language", some "en")]).2
      "language" ≠ some "fr-FR" := by
  constructor
  · rfl
  · decide

/-- C8 amended: whenever the caller-supplied mapping does not itself bind the
reserved names `api_key` and `language` (which no call site in the repository
does), the constructed URL contains the API key and the fixed locale
parameter, contains every caller parameter whose value is non-null with
exactly that value, and omits every parameter whose value is
`undefined`/`null` rather than sending an empty string; on a name collision
the caller value would win, since callers are merged on top of the defaults. -/
theorem c8_amended_fetch_params (endpoint apiKey language : String)
    (params : List (String × Option String))
    (hnd : (params.map Prod.fst).Nodup)
    (hres : ∀ p ∈ params, p.1 ≠ "api_key" ∧ p.1 ≠ "language") :
    mapGet (fetchUrl endpoint apiKey language params).2 "api_key" = some apiKey ∧
    mapGet (fetchUrl endpoint apiKey language params).2 "language" = some language ∧
    (∀ k v, (k, some v) ∈ params →
      mapGet (fetchUrl endpoint apiKey language params).2 k = some v) ∧
    (∀ k, (k, none) ∈ params →
      mapGet (fetchUrl endpoint apiKey language params).2 k = none) ∧
    (fetchUrl endpoint apiKey language params).1 = TMDB_BASE_URL ++ endpoint := by
  refine ⟨?_, ?_, ?_, ?_, rfl⟩
  · have h1 : ∀ p ∈ params, p.1 ≠ "api_key" := fun p hp => (hres p hp).1
    show mapGet (applyParams (mapSet (mapSet [] "api_key" apiKey) "language" language) params)
      "api_key" = some apiKey
    rw [applyParams_lookup_of_not_mem _ _ _ h1]
    rfl
  · have h2 : ∀ p ∈ params, p.1 ≠ "language" := fun p hp => (hres p hp).2
    show mapGet (applyParams (mapSet (mapSet [] "api_key" apiKey) "language" language) params)
      "language" = some language
    rw [applyParams_lookup_of_not_mem _ _ _ h2]
    rfl
  · intro k v hm
    show mapGet (applyParams (mapSet (mapSet [] "api_key" apiKey) "language" language) params)
      k = some v
    exact applyParams_lookup_some _ _ _ _ hnd hm
  · intro k hm
    have hk := hres (k, none) hm
    show mapGet (applyParams (mapSet (mapSet [] "api_key" apiKey) "language" language) params)
      k = none
    rw [applyParams_lookup_none _ _ _ hnd hm]
    simp [mapGet, mapSet, Ne.symm hk.1, Ne.symm hk.2]

theorem c8_amended_witness :
    mapGet (fetchUrl "/discover/movie" "KEY" "fr-FR"
      [("page", some "1"), ("with_genres", some "53"), ("region", none)]).2
      "api_key" = some "KEY" ∧
    mapGet (fetchUrl "/discover/movie" "KEY" "fr-FR"
      [("page", some "1"), ("with_genres", some "53"), ("region", none)]).2
      "language" = some "fr-FR" ∧
    mapGet (fetchUrl "/discover/movie" "KEY" "fr-FR"
      [("page", some "1"), ("with_genres", some "53"), ("region", none)]).2
      "with_genres" = some "53" ∧
    mapGet (fetchUrl "/discover/movie" "KEY" "fr-FR"
      [("page", some "1"), ("with_genres", some "53"), ("region", none)]).2
      "region" = none := by
  have h := c8_amended_fetch_params "/discover/movie" "KEY" "fr-FR"
    [("page", some "1"), ("with_genres", some "53"), ("region", none)]
    (by decide) (by decide)
  exact ⟨h.1, h.2.1, h.2.2.1 "with_genres" "53" (by decide), h.2.2.2.1 "region" (by decide)⟩

/-- C9: the search operations thread the response cache through unchanged and
their result is independent of its contents (each invocation works from the
fresh upstream response), unlike every named catalogue fetch operation, which
answers from a fresh cache entry for its key without running its body and
writes a new entry on a miss. -/
theorem c9_search_bypasses_cache :
    (∀ (resolve : Nat → Option String) (upstream : List (Option RawMovie))
        (cache : List (String × CacheEntry (List Meta))),
      (searchMovies resolve upstream cache).2 = cache) ∧
    (∀ (resolve : Nat → Option String) (upstream : List (Option RawMovie))
        (cache cache' : List (String × CacheEntry (List Meta))),
      (searchMovies resolve upstream cache).1 = (searchMovies resolve upstream cache').1) ∧
    (∀ (resolve : Nat → Option String) (upstream : List (Option RawSeries))
        (cache : List (String × CacheEntry (List Meta))),
      (searchSeries resolve upstream cache).2 = cache) ∧
    (∀ (resolve : Nat → Option String) (upstream : List (Option RawSeries))
        (cache cache' : List (String × CacheEntry (List Meta))),
      (searchSeries resolve upstream cache).1 = (searchSeries resolve upstream cache').1) ∧
    (∀ (α : Type) (op : NamedOp) (page : Int) (now : Nat) (v : α)
        (cache : List (String × CacheEntry α)) (e : CacheEntry α),
      mapGet cache (op.cacheKey page) = some e → now - e.timestamp < CACHE_TTL →
      runNamedOp op page now v cache = (e.data, cache, false)) ∧
    (∀ (α : Type) (op : NamedOp) (page : Int) (now : Nat) (v : α)
        (cache : List (String × CacheEntry α)),
      mapGet cache (op.cacheKey page) = none →
      runNamedOp op page now v cache = (v, mapSet cache (op.cacheKey page) ⟨v, now⟩, true)) := by
  refine ⟨fun _ _ _ => rfl, fun _ _ _ _ => rfl, fun _ _ _ => rfl, fun _ _ _ _ => rfl, ?_, ?_⟩
  · intro α op page now v cache e he hfresh
    simp [runNamedOp, cached, he, hfresh]
  · intro α op page now v cache he
    simp [runNamedOp, cached, he]

theorem c9_witness :
    runNamedOp (NamedOp.moviesByGenre 53) 1 5 (9 : Nat) [("movies_genre_53_1", ⟨7, 0⟩)] =
      (7, [("movies_genre_53_1", ⟨7, 0⟩)], false) ∧
    runNamedOp NamedOp.topRatedMovies 1 5 (9 : Nat) [] =
      (9, [("top_rated_movies_1", ⟨9, 5⟩)], true) := by
  have h := c9_search_bypasses_cache
  constructor
  · exact h.2.2.2.2.1 Nat (NamedOp.moviesByGenre 53) 1 5 9
      [("movies_genre_53_1", ⟨7, 0⟩)] ⟨7, 0⟩ (by decide) (by decide)
  · have h6 := h.2.2.2.2.2 Nat NamedOp.topRatedMovies 1 5 9 [] (by decide)
    rw [h6]
    decide
